import Mathlib

/-!
Verification development for the blurberry History Capture & Retrieval Engine.

Shallow embedding of:
- `HistoryDatabase` (src/src/main/Panel.ts, third concatenated module)
- `VectorStore` (src/unnamed/part_003, third concatenated module)
- `HistoryTracker` (src/unnamed/part_007; this is the live version, wired through
  `EventManager` in src/unnamed/part_002 via its public `flushInteractions`;
  the older copy in src/src/main/HistoryTracker.ts lacks that method)
- `WorkflowAnalyzer` and `HistorySettings` (src/src/main/Panel.ts second module,
  src/src/main/HistorySettings.ts)

Conventions: timestamps (`Date.now()`) are `Int` milliseconds supplied by the
event environment; embedding vectors are opaque `List Int`; the platform URL
parser (`new URL(url).hostname`) and the md5 / embedding externals are
abstracted as function parameters.
-/

namespace Blurberry

/-- Millisecond timestamps as produced by `Date.now()`. -/
abbrev Time := Int

/-- Opaque embedding vectors (their numeric content is never inspected). -/
abbrev Vec := List Int

/-- JS `s || dflt` on strings: the empty string is falsy. -/
def jsOrString (s dflt : String) : String :=
  if s = "" then dflt else s

/-- JS `v || null` on an optional string (`item.selector || null`):
`undefined` and `""` both become SQL NULL. -/
def jsOrNullStr : Option String → Option String
  | some s => if s = "" then none else some s
  | none => none

/-- JS `v || null` on an optional number (`item.x || null`):
`undefined` and `0` both become SQL NULL. -/
def jsOrNullNum : Option Int → Option Int
  | some n => if n = 0 then none else some n
  | none => none

/-! ## HistoryDatabase rows (interfaces in src/src/main/Panel.ts) -/

/-- `sessions` table row. -/
structure SessionRow where
  id : Nat
  start_time : Time
  end_time : Option Time
deriving Repr, DecidableEq

/-- `page_visits` table row. -/
structure PageVisitRow where
  id : Nat
  session_id : Nat
  tab_id : String
  url : String
  title : String
  timestamp : Time
  duration : Option Int
  favicon_url : Option String
deriving Repr, DecidableEq

/-- Tab lifecycle actions. -/
inductive TabAction where
  | created
  | switched
  | closed
deriving Repr, DecidableEq

/-- `tab_events` table row. -/
structure TabEventRow where
  id : Nat
  session_id : Nat
  tab_id : String
  action : TabAction
  timestamp : Time
deriving Repr, DecidableEq

/-- Interaction kinds. -/
inductive InteractionType where
  | click
  | input
  | scroll
  | select
  | clipboard
  | keypress
deriving Repr, DecidableEq

/-- `interactions` table row. -/
structure InteractionRow where
  id : Nat
  visit_id : Nat
  type : InteractionType
  selector : Option String
  value : Option String
  x : Option Int
  y : Option Int
  timestamp : Time
deriving Repr, DecidableEq

/-- `dom_snapshots` table row. -/
structure DOMSnapshotRow where
  id : Nat
  visit_id : Nat
  html : String
  timestamp : Time
deriving Repr, DecidableEq

/-- Modelled from the spec: the EmbeddingRecord entity
(visit_id, model_name, content_hash, created_at).  The embeddings table and its
accessors are referenced by `HistoryTracker.generateEmbedding` but their store
implementation is not among the provided sources. -/
structure EmbeddingRow where
  visit_id : Nat
  model_name : String
  content_hash : String
  created_at : Time
deriving Repr, DecidableEq

/-- The relational store of `HistoryDatabase` (src/src/main/Panel.ts) together
with its in-memory `currentSessionId` pointer and per-table AUTOINCREMENT
counters.  Tables not touched by any verified operation (screenshots,
scroll_events, workflow_cache) are omitted. -/
structure HistoryDatabase where
  sessions : List SessionRow
  page_visits : List PageVisitRow
  tab_events : List TabEventRow
  interactions : List InteractionRow
  dom_snapshots : List DOMSnapshotRow
  embeddings : List EmbeddingRow
  currentSessionId : Option Nat
  nextSessionId : Nat
  nextVisitId : Nat
  nextTabEventId : Nat
  nextInteractionId : Nat
  nextSnapshotId : Nat
deriving Repr, DecidableEq

/-- A freshly created, schema-initialized store. -/
def HistoryDatabase.empty : HistoryDatabase :=
  { sessions := []
    page_visits := []
    tab_events := []
    interactions := []
    dom_snapshots := []
    embeddings := []
    currentSessionId := none
    nextSessionId := 1
    nextVisitId := 1
    nextTabEventId := 1
    nextInteractionId := 1
    nextSnapshotId := 1 }

/-- `startSession()`: inserts a session with `start_time = Date.now()` and a
NULL `end_time`, remembers it as the current session, and returns the new id.
It does not close any previously open session row. -/
def HistoryDatabase.startSession (db : HistoryDatabase) (now : Time) :
    HistoryDatabase × Nat :=
  let id := db.nextSessionId
  ({ db with
      sessions := db.sessions ++ [{ id := id, start_time := now, end_time := none }]
      nextSessionId := id + 1
      currentSessionId := some id }, id)

/-- `endSession(sessionId)`: `UPDATE sessions SET end_time = ? WHERE id = ?`,
then clears `currentSessionId` when it pointed at this session. -/
def HistoryDatabase.endSession (db : HistoryDatabase) (now : Time)
    (sessionId : Nat) : HistoryDatabase :=
  { db with
      sessions := db.sessions.map fun s =>
        if s.id = sessionId then { s with end_time := some now } else s
      currentSessionId :=
        if db.currentSessionId = some sessionId then none
        else db.currentSessionId }

/-- `recordPageVisit(sessionId, tabId, url, title)`: inserts a visit row with
NULL duration and favicon and returns `last_insert_rowid()`. -/
def HistoryDatabase.recordPageVisit (db : HistoryDatabase) (now : Time)
    (sessionId : Nat) (tabId url title : String) : HistoryDatabase × Nat :=
  let id := db.nextVisitId
  ({ db with
      page_visits := db.page_visits ++
        [{ id := id, session_id := sessionId, tab_id := tabId, url := url,
           title := title, timestamp := now, duration := none,
           favicon_url := none }]
      nextVisitId := id + 1 }, id)

/-- `updatePageVisitDuration(visitId, duration)`:
`UPDATE page_visits SET duration = ? WHERE id = ?` (no-op on unknown id). -/
def HistoryDatabase.updatePageVisitDuration (db : HistoryDatabase)
    (visitId : Nat) (duration : Int) : HistoryDatabase :=
  { db with
      page_visits := db.page_visits.map fun v =>
        if v.id = visitId then { v with duration := some duration } else v }

/-- `recordTabEvent(sessionId, tabId, action)`. -/
def HistoryDatabase.recordTabEvent (db : HistoryDatabase) (now : Time)
    (sessionId : Nat) (tabId : String) (action : TabAction) : HistoryDatabase :=
  let id := db.nextTabEventId
  { db with
      tab_events := db.tab_events ++
        [{ id := id, session_id := sessionId, tab_id := tabId,
           action := action, timestamp := now }]
      nextTabEventId := id + 1 }

/-- One queued interaction as delivered by the injected page script
(`PendingInteraction` in src/unnamed/part_007): optional fields may be absent
(`undefined`), modelled as `none`. -/
structure PendingInteraction where
  visitId : Nat
  type : InteractionType
  selector : Option String
  value : Option String
  x : Option Int
  y : Option Int
  timestamp : Time
deriving Repr, DecidableEq

/-- `recordInteractionsBatch(interactions)`: one INSERT per item, in input
order, binding `item.selector || null`, `item.value || null`, `item.x || null`,
`item.y || null` and the item's own timestamp. -/
def HistoryDatabase.recordInteractionsBatch (db : HistoryDatabase)
    (items : List PendingInteraction) : HistoryDatabase :=
  items.foldl
    (fun db item =>
      let id := db.nextInteractionId
      { db with
          interactions := db.interactions ++
            [{ id := id, visit_id := item.visitId, type := item.type,
               selector := jsOrNullStr item.selector,
               value := jsOrNullStr item.value,
               x := jsOrNullNum item.x, y := jsOrNullNum item.y,
               timestamp := item.timestamp }]
          nextInteractionId := id + 1 })
    db

/-- `recordDOMSnapshot(visitId, html)` (the caller truncates the html). -/
def HistoryDatabase.recordDOMSnapshot (db : HistoryDatabase) (now : Time)
    (visitId : Nat) (html : String) : HistoryDatabase :=
  let id := db.nextSnapshotId
  { db with
      dom_snapshots := db.dom_snapshots ++
        [{ id := id, visit_id := visitId, html := html, timestamp := now }]
      nextSnapshotId := id + 1 }

/-- Insertion step for `ORDER BY timestamp DESC`. -/
def insertByTimestampDesc (v : PageVisitRow) :
    List PageVisitRow → List PageVisitRow
  | [] => [v]
  | w :: ws =>
    if v.timestamp ≥ w.timestamp then v :: w :: ws
    else w :: insertByTimestampDesc v ws

/-- Sort page visits by descending timestamp. -/
def sortByTimestampDesc (l : List PageVisitRow) : List PageVisitRow :=
  l.foldr insertByTimestampDesc []

/-- `getRecentHistory(limit)`:
`SELECT * FROM page_visits ORDER BY timestamp DESC LIMIT ?`. -/
def HistoryDatabase.getRecentHistory (db : HistoryDatabase) (limit : Nat) :
    List PageVisitRow :=
  (sortByTimestampDesc db.page_visits).take limit

/-- `getVisitInteractions(visitId)`:
`SELECT * FROM interactions WHERE visit_id = ? ORDER BY timestamp ASC`.
Insertion order coincides with queue order; SQL re-sorts by timestamp
ascending (stably, in our model). -/
def insertByTimestampAsc (i : InteractionRow) :
    List InteractionRow → List InteractionRow
  | [] => [i]
  | w :: ws =>
    if w.timestamp ≤ i.timestamp then w :: insertByTimestampAsc i ws
    else i :: w :: ws

def HistoryDatabase.getVisitInteractions (db : HistoryDatabase)
    (visitId : Nat) : List InteractionRow :=
  (db.interactions.filter (fun i => i.visit_id = visitId)).foldl
    (fun acc i => insertByTimestampAsc i acc) []

/-- Modelled from the spec: `hasEmbedding(visitId)` — "idempotency check
before expensive embedding work"; true iff an EmbeddingRecord for the visit
exists.  Its store implementation is not among the provided sources. -/
def HistoryDatabase.hasEmbedding (db : HistoryDatabase) (visitId : Nat) : Bool :=
  db.embeddings.any (fun e => e.visit_id = visitId)

/-- Modelled from the spec: `recordEmbedding(visitId, model, hash)` — "marks a
visit as semantically indexed".  Its store implementation is not among the
provided sources. -/
def HistoryDatabase.recordEmbedding (db : HistoryDatabase) (now : Time)
    (visitId : Nat) (modelName contentHash : String) : HistoryDatabase :=
  { db with
      embeddings := db.embeddings ++
        [{ visit_id := visitId, model_name := modelName,
           content_hash := contentHash, created_at := now }] }

/-- The `{ title, url, html }` record consumed by
`HistoryTracker.generateEmbedding`. -/
structure VisitContent where
  title : String
  url : String
  html : String
deriving Repr, DecidableEq

/-- Modelled from the spec: `getVisitContent(visitId)` — the page content used
to build the embedding text: the visit's title and URL plus the latest stored
DOM snapshot html; `null` (here `none`) when the visit or snapshot is absent.
Its store implementation is not among the provided sources. -/
def HistoryDatabase.getVisitContent (db : HistoryDatabase) (visitId : Nat) :
    Option VisitContent :=
  match db.page_visits.find? (fun v => v.id = visitId) with
  | none => none
  | some v =>
    match (db.dom_snapshots.filter (fun s => s.visit_id = visitId)).getLast? with
    | none => none
    | some snap => some { title := v.title, url := v.url, html := snap.html }

/-! ## VectorStore (src/unnamed/part_003) -/

/-- The hnswlib index: fixed capacity (`initIndex(10000)`) and the inserted
points in insertion order, keyed by visit id. -/
structure VectorStore where
  capacity : Nat
  points : List (Nat × Vec)
deriving Repr, DecidableEq

/-- A freshly initialized index (`initIndex(10000)`, "max 10k pages"). -/
def VectorStore.init : VectorStore :=
  { capacity := 10000, points := [] }

/-- Models the external `HierarchicalNSW.addPoint`: hnswlib throws once the
index already holds its configured maximum number of elements; otherwise the
point is inserted. -/
def VectorStore.addPoint (vs : VectorStore) (embedding : Vec) (visitId : Nat) :
    Except String VectorStore :=
  if vs.capacity ≤ vs.points.length then
    Except.error "The number of elements exceeds the specified limit"
  else
    Except.ok { vs with points := vs.points ++ [(visitId, embedding)] }

/-- Outcome of one `addVector` call: the index afterwards, the error
propagated to the caller (the promise rejection), and the messages written to
the console log. -/
structure AddVectorResult where
  store : VectorStore
  thrown : Option String
  logged : List String
deriving Repr, DecidableEq

/-- `VectorStore.addVector(visitId, embedding)`: `addPoint` then `writeIndex`,
the whole body wrapped in `try/catch` whose handler only calls
`console.error` — so a failing insert is logged and the promise still
resolves. -/
def VectorStore.addVector (vs : VectorStore) (visitId : Nat)
    (embedding : Vec) : AddVectorResult :=
  match vs.addPoint embedding visitId with
  | Except.ok vs1 => { store := vs1, thrown := none, logged := [] }
  | Except.error e => { store := vs, thrown := none, logged := [e] }

/-! ## HistorySettings (src/src/main/HistorySettings.ts) -/

/-- JS `hostname.endsWith("." + domain)` (suffix on UTF-16 units, modelled on
characters). -/
def jsEndsWith (s suffix : String) : Bool :=
  suffix.toList.isSuffixOf s.toList

/-- `HistorySettings.isDomainExcluded` match for one domain:
`hostname === domain || hostname.endsWith("." + domain)`. -/
def HistorySettings.domainMatches (hostname domain : String) : Bool :=
  hostname = domain || jsEndsWith hostname ("." ++ domain)

/-- `HistorySettings.isDomainExcluded(url)` over its excluded-domain list,
given the hostname the platform URL parser produced for `url` (`none` models
the `new URL` throw, caught to `false`).  Note: this suffix-matching check is
defined in HistorySettings but is not invoked anywhere in the capture
pipeline. -/
def HistorySettings.isDomainExcluded (excludedDomains : List String)
    (hostname : Option String) : Bool :=
  match hostname with
  | some h => excludedDomains.any (fun d => HistorySettings.domainMatches h d)
  | none => false

/-! ## HistoryTracker (src/unnamed/part_007) -/

/-- Per-tab transient tracker (`VisitTracker`). -/
structure VisitTracker where
  visitId : Nat
  startTime : Time
  lastScreenshot : Time
  lastSnapshot : Time
  url : String
deriving Repr, DecidableEq

/-- Association-list lookup for the `Map`-typed fields keyed by tab id. -/
def alistGet (m : List (String × VisitTracker)) (k : String) :
    Option VisitTracker :=
  match m.find? (fun p => p.1 = k) with
  | some p => some p.2
  | none => none

/-- Association-list `Map.set`: replaces the binding in place or appends. -/
def alistSet (m : List (String × VisitTracker)) (k : String)
    (v : VisitTracker) : List (String × VisitTracker) :=
  if (m.find? (fun p => p.1 = k)).isSome then
    m.map (fun p => if p.1 = k then (k, v) else p)
  else m ++ [(k, v)]

/-- Association-list `Map.delete`. -/
def alistDelete (m : List (String × VisitTracker)) (k : String) :
    List (String × VisitTracker) :=
  m.filter (fun p => p.1 ≠ k)

/-- The mutable state of a `HistoryTracker` instance together with the store
it writes to.  `hasEmbeddingModel` models whether `setEmbeddingModel` was
given a non-null model. -/
structure TrackerState where
  db : HistoryDatabase
  sessionId : Option Nat
  pendingInteractions : List PendingInteraction
  visitTrackers : List (String × VisitTracker)
  enabled : Bool
  excludedDomains : List String
  vectorStore : Option VectorStore
  hasEmbeddingModel : Bool
deriving Repr, DecidableEq

/-- `isExcludedDomain(url)`: parse the hostname (the platform URL parser is
the `host` parameter; `none` models the constructor throw, caught to `false`)
and test exact membership in the excluded-domain set. -/
def isExcludedDomain (host : String → Option String)
    (excludedDomains : List String) (url : String) : Bool :=
  match host url with
  | some hostname => excludedDomains.contains hostname
  | none => false

/-- `handleNavigation(tab, url)` (src/unnamed/part_007 lines 144-194): guard on
enabled/session, guard on excluded domain, ignore a duplicate event for the
tracker's current URL, otherwise stamp the outgoing visit's duration, insert
the new PageVisit row (title `tab.title || "Loading..."`) and reset the
tracker.  The three delayed captures it schedules (screenshot, snapshot,
embedding) fire later as separate events and are modelled by their own
functions. -/
def handleNavigation (host : String → Option String) (st : TrackerState)
    (now : Time) (tabId tabTitle url : String) : TrackerState :=
  if st.enabled = false then st else
  match st.sessionId with
  | none => st
  | some sessionId =>
    if isExcludedDomain host st.excludedDomains url then st else
    match alistGet st.visitTrackers tabId with
    | some tracker =>
      if tracker.url = url then st
      else
        let db1 := st.db.updatePageVisitDuration tracker.visitId
          (now - tracker.startTime)
        let r := db1.recordPageVisit now sessionId tabId url
          (jsOrString tabTitle "Loading...")
        { st with
            db := r.1
            visitTrackers := alistSet st.visitTrackers tabId
              { visitId := r.2, startTime := now, lastScreenshot := 0,
                lastSnapshot := 0, url := url } }
    | none =>
      let r := st.db.recordPageVisit now sessionId tabId url
        (jsOrString tabTitle "Loading...")
      { st with
          db := r.1
          visitTrackers := alistSet st.visitTrackers tabId
            { visitId := r.2, startTime := now, lastScreenshot := 0,
              lastSnapshot := 0, url := url } }

/-- `handleTabSwitch(tabId)`. -/
def handleTabSwitch (st : TrackerState) (now : Time) (tabId : String) :
    TrackerState :=
  if st.enabled = false then st else
  match st.sessionId with
  | none => st
  | some sessionId =>
    { st with db := st.db.recordTabEvent now sessionId tabId TabAction.switched }

/-- `handleTabClose(tabId)`: record the `closed` TabEvent, stamp the final
duration on the open visit, drop the tracker. -/
def handleTabClose (st : TrackerState) (now : Time) (tabId : String) :
    TrackerState :=
  if st.enabled = false then st else
  match st.sessionId with
  | none => st
  | some sessionId =>
    let db1 := st.db.recordTabEvent now sessionId tabId TabAction.closed
    match alistGet st.visitTrackers tabId with
    | some tracker =>
      { st with
          db := db1.updatePageVisitDuration tracker.visitId
            (now - tracker.startTime)
          visitTrackers := alistDelete st.visitTrackers tabId }
    | none => { st with db := db1 }

/-- Environment outcome of the `db.run` loop inside
`recordInteractionsBatch`: either every row INSERT succeeds, or sql.js throws
while inserting item `k` (the first `k` rows are already in). -/
inductive BatchOutcome where
  | ok
  | failAt (k : Nat)
deriving Repr, DecidableEq

/-- `flushInteractions()`: empty-queue early return, then
`try { recordInteractionsBatch(pending); pending = [] } catch { log }` —
the queue-clearing assignment runs only when the batch insert returns. -/
def flushInteractions (st : TrackerState) (outcome : BatchOutcome) :
    TrackerState :=
  if st.pendingInteractions.isEmpty then st else
  match outcome with
  | BatchOutcome.ok =>
    { st with
        db := st.db.recordInteractionsBatch st.pendingInteractions
        pendingInteractions := [] }
  | BatchOutcome.failAt k =>
    { st with
        db := st.db.recordInteractionsBatch (st.pendingInteractions.take k) }

/-- `recordInteraction(interaction)`: guard on enabled, push onto the queue,
and flush immediately once `pendingInteractions.length > 100`. -/
def recordInteraction (st : TrackerState) (i : PendingInteraction)
    (outcome : BatchOutcome) : TrackerState :=
  if st.enabled = false then st else
  let st1 := { st with pendingInteractions := st.pendingInteractions ++ [i] }
  if 100 < st1.pendingInteractions.length then flushInteractions st1 outcome
  else st1

/-! ## Embedding generation (src/unnamed/part_007 lines 517-557) -/

/-- One pass of `html.replace(/<[^>]*>/g, " ")`: scanning left to right, each
`<...>` group (up to the next `>`) is replaced by a single space; a `<` with no
later `>` stays literal.  Structural recursion on a fuel bounded below by the
input length (each step consumes at least one character, so the zero-fuel
fallback is unreachable from `stripTags`). -/
def stripTagsFuel : Nat → List Char → List Char
  | 0, s => s
  | _ + 1, [] => []
  | fuel + 1, c :: cs =>
    if c = '<' then
      match cs.dropWhile (fun d => d ≠ '>') with
      | [] => c :: cs
      | _ :: rest => ' ' :: stripTagsFuel fuel rest
    else c :: stripTagsFuel fuel cs

/-- `content.html.replace(/<[^>]*>/g, " ")`. -/
def stripTags (html : String) : String :=
  (stripTagsFuel html.length html.toList).asString

/-- `` `${content.title}\n${content.url}\n${text}` `` where `text` is the
stripped html truncated to 8000 characters (`substring(0, 8000)`). -/
def embeddingTextOf (content : VisitContent) : String :=
  let text := ((stripTags content.html).toList.take 8000).asString
  content.title ++ "\n" ++ content.url ++ "\n" ++ text

/-- External collaborators used by `generateEmbedding`: the md5 hex digest
(`createHash("md5")...digest("hex")`) and the embedding model call
(`embedMany`), both outside this repository. -/
structure EmbedEnv where
  hash : String → String
  embed : String → Vec

/-- `generateEmbedding(tab, visitId)`: bail out when the vector store or the
embedding model is unset or when `hasEmbedding(visitId)` already holds (this
check ignores the content hash); otherwise build the embedding text, hash it,
embed it, `addVector` into the index and `recordEmbedding` into the store. -/
def generateEmbedding (env : EmbedEnv) (st : TrackerState) (now : Time)
    (visitId : Nat) : TrackerState :=
  match st.vectorStore with
  | none => st
  | some vs =>
    if st.hasEmbeddingModel = false then st else
    if st.db.hasEmbedding visitId then st else
    match st.db.getVisitContent visitId with
    | none => st
    | some content =>
      let embeddingText := embeddingTextOf content
      let contentHash := env.hash embeddingText
      let embedding := env.embed embeddingText
      let r := vs.addVector visitId embedding
      { st with
          vectorStore := some r.store
          db := st.db.recordEmbedding now visitId "text-embedding-3-small"
            contentHash }

/-! ## The capture pipeline as an event-step machine -/

/-- The discrete events the capture pipeline reacts to, each carrying the
`Date.now()` reading (or, for interactions, the page-script timestamp inside
the payload) and, where a database write can fail, the environment's outcome
for it. -/
inductive CaptureEvent where
  | navigate (now : Time) (tabId tabTitle url : String)
  | interact (i : PendingInteraction) (outcome : BatchOutcome)
  | flushTick (outcome : BatchOutcome)
  | embedTimer (env : EmbedEnv) (now : Time) (visitId : Nat)
  | tabSwitch (now : Time) (tabId : String)
  | tabClose (now : Time) (tabId : String)

/-- Dispatch one event to the tracker. -/
def step (host : String → Option String) (st : TrackerState) :
    CaptureEvent → TrackerState
  | CaptureEvent.navigate now tabId tabTitle url =>
    handleNavigation host st now tabId tabTitle url
  | CaptureEvent.interact i outcome => recordInteraction st i outcome
  | CaptureEvent.flushTick outcome => flushInteractions st outcome
  | CaptureEvent.embedTimer env now visitId =>
    generateEmbedding env st now visitId
  | CaptureEvent.tabSwitch now tabId => handleTabSwitch st now tabId
  | CaptureEvent.tabClose now tabId => handleTabClose st now tabId

/-- Run a sequence of events. -/
def run (host : String → Option String) (st : TrackerState)
    (events : List CaptureEvent) : TrackerState :=
  events.foldl (step host) st

/-- `HistoryTracker.start()` on a fresh store: a new session is opened and
batch processing begins with an empty queue and no trackers. -/
def TrackerState.start (excludedDomains : List String) (now : Time) :
    TrackerState :=
  let r := HistoryDatabase.empty.startSession now
  { db := r.1
    sessionId := some r.2
    pendingInteractions := []
    visitTrackers := []
    enabled := true
    excludedDomains := excludedDomains
    vectorStore := some VectorStore.init
    hasEmbeddingModel := true }

/-! ## WorkflowAnalyzer (src/src/main/Panel.ts, second module) -/

/-- The SQL type names as rendered into analyzer context strings. -/
def InteractionType.name : InteractionType → String
  | InteractionType.click => "click"
  | InteractionType.input => "input"
  | InteractionType.scroll => "scroll"
  | InteractionType.select => "select"
  | InteractionType.clipboard => "clipboard"
  | InteractionType.keypress => "keypress"

/-- `visit.duration ? Math.floor(visit.duration / 1000) : "unknown"`
(JS falsy: NULL and 0 both render "unknown"). -/
def durationSeconds : Option Int → String
  | some d => if d = 0 then "unknown" else toString (Int.fdiv d 1000)
  | none => "unknown"

/-- First-appearance order of interaction types (JS object key insertion
order in the `reduce` grouping). -/
def distinctTypes (l : List InteractionRow) : List InteractionType :=
  l.foldl (fun acc i => if acc.contains i.type then acc else acc ++ [i.type]) []

/-- `buildVisitsContext(visits)`: header plus, per visit, title/URL/duration
lines and per-type interaction counts. -/
def buildVisitsContext (db : HistoryDatabase) (visits : List PageVisitRow) :
    String :=
  let n := visits.length
  let header := "# Recent Browsing Activity (" ++ toString n ++ " visits)\n\n"
  visits.foldl
    (fun ctx visit =>
      let interactions := db.getVisitInteractions visit.id
      let base := ctx ++ "## " ++ visit.title ++ "\n" ++
        "URL: " ++ visit.url ++ "\n" ++
        "Duration: " ++ durationSeconds visit.duration ++ " seconds\n"
      let withInteractions :=
        if interactions.length = 0 then base
        else
          let cnt := interactions.length
          (distinctTypes interactions).foldl
            (fun acc t =>
              let tc := (interactions.filter (fun i => i.type = t)).length
              acc ++ "  - " ++ t.name ++ ": " ++ toString tc ++ "\n")
            (base ++ "Interactions: " ++ toString cnt ++ "\n")
      withInteractions ++ "\n")
    header

/-- `buildAnalysisPrompt(context)`: deterministic prompt template around the
context (abbreviated template text; only its dependence on the context
matters here). -/
def buildAnalysisPrompt (context : String) : String :=
  "You are an expert at analyzing browsing behavior and identifying repeatable workflows. \n\n" ++
  "Analyze the following browsing session and identify a repeatable workflow that could be automated:\n\n" ++
  context ++
  "\n\nProvide a structured workflow that could be used by an AI agent or automation tool."

/-- The structured object returned by the external generation capability
(`generateObject`); opaque to every verified property. -/
abbrev Workflow := String

/-- `analyzeRecentHistory(limitVisits = 50)`: fail fast when the model is not
initialized, load recent visits, fail with "No history to analyze" when there
are none, otherwise issue exactly one generation call on the built prompt.
Returns the thrown-or-returned result together with the list of prompts
actually sent to the external generation capability. -/
def analyzeRecentHistory (model : Option Unit) (db : HistoryDatabase)
    (gen : String → Workflow) (limitVisits : Nat) :
    Except String Workflow × List String :=
  match model with
  | none => (Except.error "LLM model not initialized", [])
  | some _ =>
    let visits := db.getRecentHistory limitVisits
    if visits.length = 0 then
      (Except.error "No history to analyze", [])
    else
      let prompt := buildAnalysisPrompt (buildVisitsContext db visits)
      (Except.ok (gen prompt), [prompt])

/-- A concrete stand-in for the platform WHATWG URL parser, adequate for the
plain `http(s)://host/path` URLs used in witnesses: strip the scheme and take
the host up to the first `/`, `:` or `?`. -/
def demoHost (url : String) : Option String :=
  let rest :=
    if "https://".toList.isPrefixOf url.toList then (url.toList.drop 8)
    else if "http://".toList.isPrefixOf url.toList then (url.toList.drop 7)
    else []
  if rest.isEmpty then none
  else some ((rest.takeWhile (fun c => c ≠ '/' && c ≠ ':' && c ≠ '?')).asString)

/-! ## Helper lemmas -/

/-- The row inserted for one batch item (selector/value/x/y pass through the
JS `|| null` coercion). -/
def interactionRowOf (id : Nat) (item : PendingInteraction) : InteractionRow :=
  { id := id, visit_id := item.visitId, type := item.type,
    selector := jsOrNullStr item.selector, value := jsOrNullStr item.value,
    x := jsOrNullNum item.x, y := jsOrNullNum item.y,
    timestamp := item.timestamp }

/-- The rows a batch insert appends, in input order, with consecutive ids. -/
def batchRows (startId : Nat) : List PendingInteraction → List InteractionRow
  | [] => []
  | item :: rest => interactionRowOf startId item :: batchRows (startId + 1) rest

theorem recordInteractionsBatch_interactions (items : List PendingInteraction) :
    ∀ db : HistoryDatabase,
      (db.recordInteractionsBatch items).interactions =
        db.interactions ++ batchRows db.nextInteractionId items := by
  induction items with
  | nil => intro db; simp [HistoryDatabase.recordInteractionsBatch, batchRows]
  | cons item rest ih =>
    intro db
    simp only [HistoryDatabase.recordInteractionsBatch, List.foldl_cons, batchRows]
    have h := ih { db with
      interactions := db.interactions ++ [interactionRowOf db.nextInteractionId item]
      nextInteractionId := db.nextInteractionId + 1 }
    simp only [HistoryDatabase.recordInteractionsBatch] at h
    simp [interactionRowOf] at h ⊢
    rw [h]

theorem recordInteractionsBatch_sessions (items : List PendingInteraction) :
    ∀ db : HistoryDatabase,
      (db.recordInteractionsBatch items).sessions = db.sessions := by
  induction items with
  | nil => intro db; rfl
  | cons item rest ih =>
    intro db
    simp only [HistoryDatabase.recordInteractionsBatch, List.foldl_cons]
    exact ih _

theorem recordInteractionsBatch_page_visits (items : List PendingInteraction) :
    ∀ db : HistoryDatabase,
      (db.recordInteractionsBatch items).page_visits = db.page_visits := by
  induction items with
  | nil => intro db; rfl
  | cons item rest ih =>
    intro db
    simp only [HistoryDatabase.recordInteractionsBatch, List.foldl_cons]
    exact ih _

theorem alistGet_alistSet_self (m : List (String × VisitTracker)) (k : String)
    (v : VisitTracker) : alistGet (alistSet m k v) k = some v := by
  by_cases h : (m.find? (fun p => p.1 = k)).isSome
  · simp only [alistSet, h, if_true]
    induction m with
    | nil => simp [List.find?] at h
    | cons a rest ih =>
      by_cases ha : a.1 = k
      · simp [alistGet, List.find?, ha]
      · have h2 : (rest.find? (fun p => p.1 = k)).isSome := by
          simpa [List.find?, ha] using h
        have := ih h2
        simpa [alistGet, List.find?, ha] using this
  · simp only [alistSet, h, if_false]
    induction m with
    | nil => simp [alistGet, List.find?]
    | cons a rest ih =>
      by_cases ha : a.1 = k
      · simp [List.find?, ha] at h
      · have h2 : ¬(rest.find? (fun p => p.1 = k)).isSome := by
          simpa [List.find?, ha] using h
        have := ih h2
        simpa [alistGet, List.find?, ha] using this

theorem handleNavigation_sessions (host : String → Option String)
    (st : TrackerState) (now : Time) (tabId tabTitle url : String) :
    (handleNavigation host st now tabId tabTitle url).db.sessions =
      st.db.sessions := by
  unfold handleNavigation
  repeat' split
  all_goals rfl

theorem flushInteractions_sessions (st : TrackerState) (o : BatchOutcome) :
    (flushInteractions st o).db.sessions = st.db.sessions := by
  unfold flushInteractions
  repeat' split
  all_goals first | rfl | simp [recordInteractionsBatch_sessions]

theorem recordInteraction_sessions (st : TrackerState) (i : PendingInteraction)
    (o : BatchOutcome) :
    (recordInteraction st i o).db.sessions = st.db.sessions := by
  unfold recordInteraction
  split
  · rfl
  · dsimp only
    split
    · exact flushInteractions_sessions _ _
    · rfl

theorem generateEmbedding_sessions (env : EmbedEnv) (st : TrackerState)
    (now : Time) (visitId : Nat) :
    (generateEmbedding env st now visitId).db.sessions = st.db.sessions := by
  unfold generateEmbedding
  repeat' split
  all_goals rfl

theorem handleTabSwitch_sessions (st : TrackerState) (now : Time)
    (tabId : String) :
    (handleTabSwitch st now tabId).db.sessions = st.db.sessions := by
  unfold handleTabSwitch
  repeat' split
  all_goals rfl

theorem handleTabClose_sessions (st : TrackerState) (now : Time)
    (tabId : String) :
    (handleTabClose st now tabId).db.sessions = st.db.sessions := by
  unfold handleTabClose
  repeat' split
  all_goals rfl

theorem step_sessions (host : String → Option String) (st : TrackerState)
    (e : CaptureEvent) : (step host st e).db.sessions = st.db.sessions := by
  cases e <;>
    simp [step, handleNavigation_sessions, recordInteraction_sessions,
      flushInteractions_sessions, generateEmbedding_sessions,
      handleTabSwitch_sessions, handleTabClose_sessions]

theorem run_sessions (host : String → Option String)
    (events : List CaptureEvent) : ∀ st : TrackerState,
    (run host st events).db.sessions = st.db.sessions := by
  induction events with
  | nil => intro st; rfl
  | cons e rest ih =>
    intro st
    simp only [run, List.foldl_cons]
    rw [show List.foldl (step host) (step host st e) rest =
      run host (step host st e) rest from rfl]
    rw [ih, step_sessions]

theorem sessions_map_noop (l : List SessionRow) (sessionId : Nat) (now : Time)
    (h : ∀ s ∈ l, s.id ≠ sessionId) :
    (l.map fun s =>
      if s.id = sessionId then { s with end_time := some now } else s) = l := by
  induction l with
  | nil => rfl
  | cons a rest ih =>
    have ha : a.id ≠ sessionId := h a (by simp)
    simp only [List.map_cons, if_neg ha]
    rw [ih fun s hs => h s (by simp [hs])]

/-! ## Claim theorems -/

/-- C10: if the bulk insert performed during an interaction flush throws, the
pending-interaction queue is left unchanged (to be retried at the next
flush); the queue is cleared only when the insert returns successfully. -/
theorem flushInteractions_failure_keeps_queue :
    ∀ (st : TrackerState) (k : Nat),
      (flushInteractions st (BatchOutcome.failAt k)).pendingInteractions =
        st.pendingInteractions ∧
      (flushInteractions st BatchOutcome.ok).pendingInteractions = [] := by
  intro st k
  constructor
  · unfold flushInteractions
    split
    · rfl
    · rfl
  · unfold flushInteractions
    split
    · rename_i h
      exact List.isEmpty_iff.mp h
    · rfl

/-- The vector index at its configured capacity of 10,000 points. -/
def fullVectorStore : VectorStore :=
  { capacity := 10000, points := List.replicate 10000 (0, []) }

theorem fullVectorStore_at_capacity :
    fullVectorStore.capacity ≤ fullVectorStore.points.length := by
  have h1 : fullVectorStore.points.length = 10000 :=
    List.length_replicate 10000 (0, [])
  have h2 : fullVectorStore.capacity = 10000 := rfl
  rw [h1, h2]

/-- C4 counterexample: on an index holding its capacity of 10,000 points the
internal `addPoint` raises, but `addVector` resolves with no error surfaced to
the caller and the point silently dropped — the failure is not
caller-visible. -/
theorem addVector_at_capacity_not_surfaced :
    (fullVectorStore.addVector 42 [1]).thrown = none ∧
    (fullVectorStore.addVector 42 [1]).store = fullVectorStore ∧
    fullVectorStore.addPoint [1] 42 =
      Except.error "The number of elements exceeds the specified limit" := by
  refine ⟨?_, ?_, ?_⟩ <;>
    simp only [VectorStore.addVector, VectorStore.addPoint,
      if_pos fullVectorStore_at_capacity]

/-- C4 (amended): a call to `addVector` on an index already holding its
configured capacity fails internally, but the error is only written to the
console log: the caller sees a normal resolution (`thrown = none`) and the
index is unchanged. -/
theorem addVector_at_capacity_logged_only :
    ∀ (vs : VectorStore) (visitId : Nat) (embedding : Vec),
      vs.capacity ≤ vs.points.length →
      vs.addVector visitId embedding =
        { store := vs, thrown := none,
          logged := ["The number of elements exceeds the specified limit"] } := by
  intro vs visitId embedding h
  simp only [VectorStore.addVector, VectorStore.addPoint, if_pos h]

/-- C4 witness: the amended statement instantiated at the full index. -/
theorem addVector_at_capacity_logged_only_witness :
    fullVectorStore.capacity ≤ fullVectorStore.points.length ∧
    fullVectorStore.addVector 42 [1] =
      { store := fullVectorStore, thrown := none,
        logged := ["The number of elements exceeds the specified limit"] } :=
  ⟨fullVectorStore_at_capacity,
   addVector_at_capacity_logged_only fullVectorStore 42 [1]
     fullVectorStore_at_capacity⟩

/-- C5 counterexample: two `startSession()` calls in a row (the second run of
the app while a crashed run left its session open, or simply two `start()`
calls) leave two session rows with `end_time` unset — the store does not
enforce at most one open session row. -/
theorem two_open_sessions_reachable :
    ((((HistoryDatabase.empty.startSession 5).1.startSession 7).1.sessions.filter
      (fun s => s.end_time = none)).length) = 2 := by decide

/-- C5 (amended): the store enforces the open-session discipline only through
its callers: `endSession` with an id matching no session row leaves every
session row unchanged, and within a single tracker run (one `start()` followed
by any sequence of capture events, which never call `startSession` again)
exactly one session row stays open. -/
theorem session_discipline :
    (∀ (db : HistoryDatabase) (now : Time) (sessionId : Nat),
      (∀ s ∈ db.sessions, s.id ≠ sessionId) →
      (db.endSession now sessionId).sessions = db.sessions) ∧
    (∀ (host : String → Option String) (excluded : List String) (t0 : Time)
      (events : List CaptureEvent),
      ((run host (TrackerState.start excluded t0) events).db.sessions.filter
        (fun s => s.end_time = none)).length = 1) := by
  constructor
  · intro db now sessionId h
    simp only [HistoryDatabase.endSession]
    exact sessions_map_noop db.sessions sessionId now h
  · intro host excluded t0 events
    rw [run_sessions]
    simp [TrackerState.start, HistoryDatabase.startSession, HistoryDatabase.empty]

/-- C5 witness: ending unknown session id 99 changes no row; a one-event run
holds exactly one open session. -/
theorem session_discipline_witness :
    (∀ s ∈ (HistoryDatabase.empty.startSession 5).1.sessions, s.id ≠ 99) ∧
    (((HistoryDatabase.empty.startSession 5).1.endSession 9 99).sessions =
      (HistoryDatabase.empty.startSession 5).1.sessions) ∧
    (((run demoHost (TrackerState.start [] 0)
        [CaptureEvent.tabSwitch 3 "t1"]).db.sessions.filter
      (fun s => s.end_time = none)).length = 1) :=
  ⟨by decide,
   session_discipline.1 (HistoryDatabase.empty.startSession 5).1 9 99 (by decide),
   session_discipline.2 demoHost [] 0 [CaptureEvent.tabSwitch 3 "t1"]⟩

/-- C8: with zero stored page visits (and the generation model configured),
`analyzeRecentHistory` fails with the "No history to analyze" condition and
sends no prompt to the external generation capability. -/
theorem analyzeRecentHistory_no_visits :
    ∀ (db : HistoryDatabase) (gen : String → Workflow) (limitVisits : Nat),
      db.page_visits = [] →
      analyzeRecentHistory (some ()) db gen limitVisits =
        (Except.error "No history to analyze", []) := by
  intro db gen limitVisits h
  simp [analyzeRecentHistory, HistoryDatabase.getRecentHistory,
    sortByTimestampDesc, h]

/-- C8 witness: the empty store instantiation. -/
theorem analyzeRecentHistory_no_visits_witness :
    HistoryDatabase.empty.page_visits = [] ∧
    analyzeRecentHistory (some ()) HistoryDatabase.empty (fun _ => "") 50 =
      (Except.error "No history to analyze", []) :=
  ⟨rfl, analyzeRecentHistory_no_visits HistoryDatabase.empty (fun _ => "") 50 rfl⟩

theorem batchRows_getElem (items : List PendingInteraction) :
    ∀ (startId k : Nat),
      (batchRows startId items)[k]? =
        (items[k]?).map (fun item => interactionRowOf (startId + k) item) := by
  induction items with
  | nil => intro startId k; simp [batchRows]
  | cons item rest ih =>
    intro startId k
    cases k with
    | zero => simp [batchRows]
    | succ k =>
      simp only [batchRows, List.getElem?_cons_succ, ih (startId + 1) k]
      have harith : startId + 1 + k = startId + (k + 1) := by omega
      rw [harith]

/-- C9: `recordInteractionsBatch` stores every falsy optional field as NULL:
the row inserted for the k-th batch item carries `item.x || null`,
`item.y || null`, `item.selector || null`, `item.value || null` — so `0`
coordinates and empty-string selector/value are stored as NULL. -/
theorem recordInteractionsBatch_falsy_nulls :
    ∀ (db : HistoryDatabase) (items : List PendingInteraction) (k : Nat)
      (item : PendingInteraction),
      items[k]? = some item →
      ((db.recordInteractionsBatch items).interactions)[db.interactions.length + k]? =
        some (interactionRowOf (db.nextInteractionId + k) item) ∧
      (item.x = some 0 → (interactionRowOf (db.nextInteractionId + k) item).x = none) ∧
      (item.y = some 0 → (interactionRowOf (db.nextInteractionId + k) item).y = none) ∧
      (item.selector = some "" →
        (interactionRowOf (db.nextInteractionId + k) item).selector = none) ∧
      (item.value = some "" →
        (interactionRowOf (db.nextInteractionId + k) item).value = none) ∧
      (interactionRowOf (db.nextInteractionId + k) item).timestamp =
        item.timestamp := by
  intro db items k item hk
  refine ⟨?_, ?_, ?_, ?_, ?_, rfl⟩
  · rw [recordInteractionsBatch_interactions]
    rw [List.getElem?_append_right (by omega)]
    have hsub : db.interactions.length + k - db.interactions.length = k := by omega
    rw [hsub, batchRows_getElem items db.nextInteractionId k, hk]
    rfl
  · intro hx; simp [interactionRowOf, hx, jsOrNullNum]
  · intro hy; simp [interactionRowOf, hy, jsOrNullNum]
  · intro hs; simp [interactionRowOf, hs, jsOrNullStr]
  · intro hv; simp [interactionRowOf, hv, jsOrNullStr]

/-- C9 witness: an item with x = y = 0 and empty selector/value is stored
with NULLs in those columns. -/
theorem recordInteractionsBatch_falsy_nulls_witness :
    ([({ visitId := 1, type := InteractionType.click, selector := some "",
         value := some "", x := some 0, y := some 0, timestamp := 99 } :
        PendingInteraction)][0]? =
      some { visitId := 1, type := InteractionType.click, selector := some "",
             value := some "", x := some 0, y := some 0, timestamp := 99 }) ∧
    ((HistoryDatabase.empty.recordInteractionsBatch
        [{ visitId := 1, type := InteractionType.click, selector := some "",
           value := some "", x := some 0, y := some 0,
           timestamp := 99 }]).interactions)[0]? =
      some { id := 1, visit_id := 1, type := InteractionType.click,
             selector := none, value := none, x := none, y := none,
             timestamp := 99 } :=
  ⟨rfl, by
    have h := (recordInteractionsBatch_falsy_nulls HistoryDatabase.empty
      [{ visitId := 1, type := InteractionType.click, selector := some "",
         value := some "", x := some 0, y := some 0, timestamp := 99 }]
      0 _ rfl).1
    simpa [interactionRowOf, jsOrNullStr, jsOrNullNum, HistoryDatabase.empty]
      using h⟩

/-- C6: pushing an interaction while the queue already holds the batch
threshold of 100 items triggers an immediate flush (no interval tick in
between): the queued items plus the new one are bulk-inserted in input order
with consecutive row ids, and the queue is left empty. -/
theorem recordInteraction_over_threshold :
    ∀ (st : TrackerState) (i : PendingInteraction),
      st.enabled = true →
      100 ≤ st.pendingInteractions.length →
      (recordInteraction st i BatchOutcome.ok).pendingInteractions = [] ∧
      (recordInteraction st i BatchOutcome.ok).db.interactions =
        st.db.interactions ++
          batchRows st.db.nextInteractionId (st.pendingInteractions ++ [i]) := by
  intro st i hen hlen
  have hguard : 100 < (st.pendingInteractions ++ [i]).length := by
    simp only [List.length_append, List.length_cons, List.length_nil]
    omega
  have hne : ((st.pendingInteractions ++ [i]).isEmpty) = false := by
    cases h : st.pendingInteractions ++ [i] with
    | nil => exact absurd h (by simp)
    | cons a rest => rfl
  have hflush : ∀ st2 : TrackerState, st2.pendingInteractions.isEmpty = false →
      flushInteractions st2 BatchOutcome.ok =
        { st2 with
            db := st2.db.recordInteractionsBatch st2.pendingInteractions
            pendingInteractions := [] } := by
    intro st2 h2
    unfold flushInteractions
    rw [h2]
    rfl
  unfold recordInteraction
  rw [if_neg (by simp [hen])]
  dsimp only
  rw [if_pos hguard, hflush _ hne]
  exact ⟨rfl, recordInteractionsBatch_interactions (st.pendingInteractions ++ [i]) st.db⟩

/-- A click item used to fill the queue in the C6 witness. -/
def c6Item : PendingInteraction :=
  { visitId := 1, type := InteractionType.click, selector := none,
    value := none, x := none, y := none, timestamp := 5 }

/-- A tracker state whose queue already holds 100 pending interactions. -/
def c6St : TrackerState :=
  { TrackerState.start [] 0 with
      pendingInteractions := List.replicate 100 c6Item }

/-- C6 witness: the threshold flush instantiated at a 100-deep queue. -/
theorem recordInteraction_over_threshold_witness :
    c6St.enabled = true ∧ 100 ≤ c6St.pendingInteractions.length ∧
    ((recordInteraction c6St c6Item BatchOutcome.ok).pendingInteractions = [] ∧
      (recordInteraction c6St c6Item BatchOutcome.ok).db.interactions =
        c6St.db.interactions ++
          batchRows c6St.db.nextInteractionId
            (c6St.pendingInteractions ++ [c6Item])) :=
  ⟨rfl,
   by
     rw [show c6St.pendingInteractions = List.replicate 100 c6Item from rfl,
       List.length_replicate],
   recordInteraction_over_threshold c6St c6Item rfl
     (by
       rw [show c6St.pendingInteractions = List.replicate 100 c6Item from rfl,
         List.length_replicate])⟩

theorem handleNavigation_duplicate (host : String → Option String)
    (st : TrackerState) (now : Time) (tabId tabTitle url : String)
    (tracker : VisitTracker)
    (hget : alistGet st.visitTrackers tabId = some tracker)
    (hurl : tracker.url = url) :
    handleNavigation host st now tabId tabTitle url = st := by
  unfold handleNavigation
  split
  · rfl
  · split
    · rfl
    · split
      · rfl
      · rw [hget]
        dsimp only
        rw [if_pos hurl]

/-- C2: two navigation events in succession for the same URL on one tab
create exactly one PageVisit row — the second event finds the tracker holding
that URL and is ignored entirely (no new row, no duration stamped, state
unchanged). -/
theorem duplicate_navigation_single_visit :
    ∀ (host : String → Option String) (st : TrackerState) (now1 now2 : Time)
      (tabId title1 title2 url : String) (sid : Nat),
      st.enabled = true →
      st.sessionId = some sid →
      isExcludedDomain host st.excludedDomains url = false →
      (∀ tracker, alistGet st.visitTrackers tabId = some tracker →
        tracker.url ≠ url) →
      handleNavigation host (handleNavigation host st now1 tabId title1 url)
          now2 tabId title2 url =
        handleNavigation host st now1 tabId title1 url ∧
      (handleNavigation host st now1 tabId title1 url).db.page_visits.length =
        st.db.page_visits.length + 1 := by
  intro host st now1 now2 tabId title1 title2 url sid hen hsid hex hfresh
  cases hget : alistGet st.visitTrackers tabId with
  | none =>
    have hst1 : handleNavigation host st now1 tabId title1 url =
        { st with
            db := (st.db.recordPageVisit now1 sid tabId url
              (jsOrString title1 "Loading...")).1
            visitTrackers := alistSet st.visitTrackers tabId
              { visitId := (st.db.recordPageVisit now1 sid tabId url
                  (jsOrString title1 "Loading...")).2,
                startTime := now1, lastScreenshot := 0, lastSnapshot := 0,
                url := url } } := by
      unfold handleNavigation
      rw [if_neg (by simp [hen]), hsid]
      dsimp only
      rw [if_neg (by simp [hex]), hget]
    constructor
    · refine handleNavigation_duplicate host _ now2 tabId title2 url
        { visitId := (st.db.recordPageVisit now1 sid tabId url
            (jsOrString title1 "Loading...")).2,
          startTime := now1, lastScreenshot := 0, lastSnapshot := 0,
          url := url } ?_ rfl
      rw [hst1]
      exact alistGet_alistSet_self _ _ _
    · rw [hst1]
      simp [HistoryDatabase.recordPageVisit]
  | some tracker =>
    have hne := hfresh tracker hget
    have hst1 : handleNavigation host st now1 tabId title1 url =
        { st with
            db := ((st.db.updatePageVisitDuration tracker.visitId
                (now1 - tracker.startTime)).recordPageVisit now1 sid tabId url
              (jsOrString title1 "Loading...")).1
            visitTrackers := alistSet st.visitTrackers tabId
              { visitId := ((st.db.updatePageVisitDuration tracker.visitId
                  (now1 - tracker.startTime)).recordPageVisit now1 sid tabId
                url (jsOrString title1 "Loading...")).2,
                startTime := now1, lastScreenshot := 0, lastSnapshot := 0,
                url := url } } := by
      unfold handleNavigation
      rw [if_neg (by simp [hen]), hsid]
      dsimp only
      rw [if_neg (by simp [hex]), hget]
      dsimp only
      rw [if_neg hne]
    constructor
    · refine handleNavigation_duplicate host _ now2 tabId title2 url
        { visitId := ((st.db.updatePageVisitDuration tracker.visitId
            (now1 - tracker.startTime)).recordPageVisit now1 sid tabId url
          (jsOrString title1 "Loading...")).2,
          startTime := now1, lastScreenshot := 0, lastSnapshot := 0,
          url := url } ?_ rfl
      rw [hst1]
      exact alistGet_alistSet_self _ _ _
    · rw [hst1]
      simp [HistoryDatabase.recordPageVisit,
        HistoryDatabase.updatePageVisitDuration]

/-- C2 witness: a fresh tab navigated twice to the same URL. -/
theorem duplicate_navigation_single_visit_witness :
    (TrackerState.start [] 0).enabled = true ∧
    (TrackerState.start [] 0).sessionId = some 1 ∧
    isExcludedDomain demoHost (TrackerState.start [] 0).excludedDomains
      "https://a.test/p1" = false ∧
    (handleNavigation demoHost
        (handleNavigation demoHost (TrackerState.start [] 0) 10 "t1" "A"
          "https://a.test/p1") 20 "t1" "A" "https://a.test/p1" =
      handleNavigation demoHost (TrackerState.start [] 0) 10 "t1" "A"
        "https://a.test/p1") ∧
    (handleNavigation demoHost (TrackerState.start [] 0) 10 "t1" "A"
        "https://a.test/p1").db.page_visits.length =
      (TrackerState.start [] 0).db.page_visits.length + 1 :=
  ⟨rfl, rfl, by decide,
   (duplicate_navigation_single_visit demoHost (TrackerState.start [] 0) 10 20
      "t1" "A" "A" "https://a.test/p1" 1 rfl rfl (by decide)
      (fun _ h => Option.noConfusion h)).1,
   (duplicate_navigation_single_visit demoHost (TrackerState.start [] 0) 10 20
      "t1" "A" "A" "https://a.test/p1" 1 rfl rfl (by decide)
      (fun _ h => Option.noConfusion h)).2⟩

/-- C7: navigating a tab whose tracker holds url A to a different url B
stamps `now - startTime` (non-null, and non-negative under a monotone clock)
on the A-visit and appends exactly one new PageVisit row for B. -/
theorem navigation_stamps_duration :
    ∀ (host : String → Option String) (st : TrackerState) (now : Time)
      (tabId tabTitle urlB : String) (sid : Nat) (tracker : VisitTracker)
      (st1 : TrackerState),
      st.enabled = true →
      st.sessionId = some sid →
      isExcludedDomain host st.excludedDomains urlB = false →
      alistGet st.visitTrackers tabId = some tracker →
      tracker.url ≠ urlB →
      tracker.startTime ≤ now →
      (∃ v ∈ st.db.page_visits, v.id = tracker.visitId) →
      st1 = handleNavigation host st now tabId tabTitle urlB →
      st1.db.page_visits =
        (st.db.page_visits.map fun v =>
          if v.id = tracker.visitId
          then { v with duration := some (now - tracker.startTime) } else v) ++
        [{ id := st.db.nextVisitId, session_id := sid, tab_id := tabId,
           url := urlB, title := jsOrString tabTitle "Loading...",
           timestamp := now, duration := none, favicon_url := none }] ∧
      (∃ v ∈ st1.db.page_visits, v.id = tracker.visitId ∧
        v.duration = some (now - tracker.startTime)) ∧
      0 ≤ now - tracker.startTime ∧
      st1.db.page_visits.length = st.db.page_visits.length + 1 := by
  intro host st now tabId tabTitle urlB sid tracker st1 hen hsid hex hget hne
    hmono hrow hst1def
  have hst1 : st1 =
      { st with
          db := ((st.db.updatePageVisitDuration tracker.visitId
              (now - tracker.startTime)).recordPageVisit now sid tabId urlB
            (jsOrString tabTitle "Loading...")).1
          visitTrackers := alistSet st.visitTrackers tabId
            { visitId := ((st.db.updatePageVisitDuration tracker.visitId
                (now - tracker.startTime)).recordPageVisit now sid tabId urlB
              (jsOrString tabTitle "Loading...")).2,
              startTime := now, lastScreenshot := 0, lastSnapshot := 0,
              url := urlB } } := by
    rw [hst1def]
    unfold handleNavigation
    rw [if_neg (by simp [hen]), hsid]
    dsimp only
    rw [if_neg (by simp [hex]), hget]
    dsimp only
    rw [if_neg hne]
  have hvis : st1.db.page_visits =
      (st.db.page_visits.map fun v =>
        if v.id = tracker.visitId
        then { v with duration := some (now - tracker.startTime) } else v) ++
      [{ id := st.db.nextVisitId, session_id := sid, tab_id := tabId,
         url := urlB, title := jsOrString tabTitle "Loading...",
         timestamp := now, duration := none, favicon_url := none }] := by
    rw [hst1]
    rfl
  obtain ⟨v0, hv0, hid⟩ := hrow
  refine ⟨hvis, ?_, sub_nonneg.mpr hmono, ?_⟩
  · refine ⟨{ v0 with duration := some (now - tracker.startTime) }, ?_, hid, rfl⟩
    rw [hvis]
    apply List.mem_append_left
    have hfv : (fun v : PageVisitRow =>
        if v.id = tracker.visitId
        then { v with duration := some (now - tracker.startTime) } else v) v0 =
        { v0 with duration := some (now - tracker.startTime) } := by
      simp only [if_pos hid]
    rw [← hfv]
    exact List.mem_map_of_mem _ hv0
  · rw [hvis]
    simp

/-- State after a first navigation of tab t1 to page p1. -/
def c7St : TrackerState :=
  handleNavigation demoHost (TrackerState.start [] 0) 10 "t1" "A"
    "https://a.test/p1"

/-- The tracker c7St holds for tab t1. -/
def c7Tracker : VisitTracker :=
  { visitId := 1, startTime := 10, lastScreenshot := 0, lastSnapshot := 0,
    url := "https://a.test/p1" }

/-- State after tab t1 then navigates to page p2. -/
def c7St1 : TrackerState :=
  handleNavigation demoHost c7St 20 "t1" "B" "https://a.test/p2"

/-- C7 witness: the p1 visit receives duration 10 and exactly one new row for
p2 appears. -/
theorem navigation_stamps_duration_witness :
    alistGet c7St.visitTrackers "t1" = some c7Tracker ∧
    c7Tracker.startTime ≤ (20 : Time) ∧
    (∃ v ∈ c7St1.db.page_visits, v.id = c7Tracker.visitId ∧
      v.duration = some (20 - c7Tracker.startTime)) ∧
    (0 : Int) ≤ 20 - c7Tracker.startTime ∧
    c7St1.db.page_visits.length = c7St.db.page_visits.length + 1 :=
  ⟨by decide, by decide,
   (navigation_stamps_duration demoHost c7St 20 "t1" "B" "https://a.test/p2" 1
      c7Tracker c7St1 rfl rfl (by decide) (by decide) (by decide) (by decide)
      (by decide) rfl).2.1,
   (navigation_stamps_duration demoHost c7St 20 "t1" "B" "https://a.test/p2" 1
      c7Tracker c7St1 rfl rfl (by decide) (by decide) (by decide) (by decide)
      (by decide) rfl).2.2.1,
   (navigation_stamps_duration demoHost c7St 20 "t1" "B" "https://a.test/p2" 1
      c7Tracker c7St1 rfl rfl (by decide) (by decide) (by decide) (by decide)
      (by decide) rfl).2.2.2⟩

/-- Hash and embedding stand-ins for the C3 scenario; the identity hash keeps
distinct embedding texts distinct, which is all the scenario needs of md5. -/
def c3Env : EmbedEnv := { hash := fun s => s, embed := fun _ => [7] }

/-- A store holding one session, one visit and one DOM snapshot ("alpha"). -/
def c3Db : HistoryDatabase :=
  (((HistoryDatabase.empty.startSession 0).1.recordPageVisit 1 1 "t1"
      "https://a.test/p" "T").1.recordDOMSnapshot 2 1 "alpha")

/-- Tracker state over c3Db, vector store and embedding model configured. -/
def c3St : TrackerState :=
  { TrackerState.start [] 0 with db := c3Db }

/-- After the first embedding request for visit 1. -/
def c3St1 : TrackerState := generateEmbedding c3Env c3St 10 1

/-- The page content then changes: a new snapshot "beta" is stored, so a new
request would compute a different content hash. -/
def c3St2pre : TrackerState :=
  { c3St1 with db := c3St1.db.recordDOMSnapshot 20 1 "beta" }

/-- After the second embedding request for visit 1. -/
def c3St2 : TrackerState := generateEmbedding c3Env c3St2pre 30 1

/-- C3 counterexample: after the first embedding for visit 1 is recorded, a
second request whose computed content hash differs (the snapshot changed from
"alpha" to "beta") stores no second EmbeddingRecord and no second vector —
it is a complete no-op, because `generateEmbedding` only tests
`hasEmbedding(visitId)` and never compares content hashes. -/
theorem changed_hash_not_reembedded :
    c3St2 = c3St2pre ∧
    c3St1.db.embeddings.length = 1 ∧
    ((c3St2pre.db.getVisitContent 1).map fun c =>
        c3Env.hash (embeddingTextOf c)) ≠
      (c3St1.db.embeddings.head?).map (fun e => e.content_hash) := by
  refine ⟨by decide, by decide, by decide⟩

/-- C3 (amended): the idempotency check before embedding work is
existence-only: once any EmbeddingRecord exists for a visit, every later
request is skipped no matter what hash it would compute (so two
identical-hash requests store exactly one record, and a changed hash does
NOT store a second one); a first request with content present stores exactly
one record carrying the computed hash. -/
theorem embedding_requests_existence_check :
    ∀ (env : EmbedEnv) (st : TrackerState) (now : Time) (visitId : Nat),
      (st.db.hasEmbedding visitId = true →
        generateEmbedding env st now visitId = st) ∧
      (∀ (vs : VectorStore) (content : VisitContent),
        st.vectorStore = some vs →
        st.hasEmbeddingModel = true →
        st.db.hasEmbedding visitId = false →
        st.db.getVisitContent visitId = some content →
        (generateEmbedding env st now visitId).db.embeddings =
          st.db.embeddings ++
            [{ visit_id := visitId, model_name := "text-embedding-3-small",
               content_hash := env.hash (embeddingTextOf content),
               created_at := now }] ∧
        (generateEmbedding env st now visitId).db.hasEmbedding visitId =
          true) := by
  intro env st now visitId
  constructor
  · intro hhas
    unfold generateEmbedding
    cases hvs : st.vectorStore with
    | none => rfl
    | some vs =>
      dsimp only
      rw [hhas]
      split <;> rfl
  · intro vs content hvs hmodel hhas hcontent
    have hred : generateEmbedding env st now visitId =
        { st with
            vectorStore := some (vs.addVector visitId
              (env.embed (embeddingTextOf content))).store
            db := st.db.recordEmbedding now visitId "text-embedding-3-small"
              (env.hash (embeddingTextOf content)) } := by
      unfold generateEmbedding
      rw [hvs]
      dsimp only
      rw [if_neg (by simp [hmodel]), hhas, if_neg (by simp), hcontent]
    rw [hred]
    constructor
    · rfl
    · simp [HistoryDatabase.hasEmbedding, HistoryDatabase.recordEmbedding]

/-- C3 witness: the amended behaviour instantiated at the concrete scenario:
the second request (existing record) is a no-op, and the first request
(no record, content "alpha") stores exactly the hashed record. -/
theorem embedding_requests_existence_check_witness :
    c3St1.db.hasEmbedding 1 = true ∧
    generateEmbedding c3Env c3St1 99 1 = c3St1 ∧
    c3St.db.hasEmbedding 1 = false ∧
    (generateEmbedding c3Env c3St 10 1).db.embeddings =
      c3St.db.embeddings ++
        [{ visit_id := 1, model_name := "text-embedding-3-small",
           content_hash := c3Env.hash (embeddingTextOf
             { title := "T", url := "https://a.test/p", html := "alpha" }),
           created_at := 10 }] :=
  ⟨by decide,
   (embedding_requests_existence_check c3Env c3St1 99 1).1 (by decide),
   by decide,
   ((embedding_requests_existence_check c3Env c3St 10 1).2 VectorStore.init
      { title := "T", url := "https://a.test/p", html := "alpha" } rfl rfl
      (by decide) (by decide)).1⟩

theorem flushInteractions_page_visits (st : TrackerState) (o : BatchOutcome) :
    (flushInteractions st o).db.page_visits = st.db.page_visits := by
  unfold flushInteractions
  repeat' split
  all_goals first | rfl | simp [recordInteractionsBatch_page_visits]

theorem recordInteraction_page_visits (st : TrackerState)
    (i : PendingInteraction) (o : BatchOutcome) :
    (recordInteraction st i o).db.page_visits = st.db.page_visits := by
  unfold recordInteraction
  split
  · rfl
  · dsimp only
    split
    · exact flushInteractions_page_visits _ _
    · rfl

theorem generateEmbedding_page_visits (env : EmbedEnv) (st : TrackerState)
    (now : Time) (visitId : Nat) :
    (generateEmbedding env st now visitId).db.page_visits =
      st.db.page_visits := by
  unfold generateEmbedding
  repeat' split
  all_goals rfl

theorem handleTabSwitch_page_visits (st : TrackerState) (now : Time)
    (tabId : String) :
    (handleTabSwitch st now tabId).db.page_visits = st.db.page_visits := by
  unfold handleTabSwitch
  repeat' split
  all_goals rfl

theorem flushInteractions_excludedDomains (st : TrackerState)
    (o : BatchOutcome) :
    (flushInteractions st o).excludedDomains = st.excludedDomains := by
  unfold flushInteractions
  repeat' split
  all_goals rfl

theorem recordInteraction_excludedDomains (st : TrackerState)
    (i : PendingInteraction) (o : BatchOutcome) :
    (recordInteraction st i o).excludedDomains = st.excludedDomains := by
  unfold recordInteraction
  split
  · rfl
  · dsimp only
    split
    · exact flushInteractions_excludedDomains _ _
    · rfl

theorem step_excludedDomains (host : String → Option String)
    (st : TrackerState) (e : CaptureEvent) :
    (step host st e).excludedDomains = st.excludedDomains := by
  cases e with
  | navigate now tabId tabTitle url =>
    show (handleNavigation host st now tabId tabTitle url).excludedDomains = _
    unfold handleNavigation
    repeat' split
    all_goals rfl
  | interact i o => exact recordInteraction_excludedDomains st i o
  | flushTick o => exact flushInteractions_excludedDomains st o
  | embedTimer env now visitId =>
    show (generateEmbedding env st now visitId).excludedDomains = _
    unfold generateEmbedding
    repeat' split
    all_goals rfl
  | tabSwitch now tabId =>
    show (handleTabSwitch st now tabId).excludedDomains = _
    unfold handleTabSwitch
    repeat' split
    all_goals rfl
  | tabClose now tabId =>
    show (handleTabClose st now tabId).excludedDomains = _
    unfold handleTabClose
    repeat' split
    all_goals rfl

/-- The visits-vs-exclusions invariant preserved by every capture event. -/
def visitsHostOk (host : String → Option String) (excluded : List String)
    (l : List PageVisitRow) : Prop :=
  ∀ v ∈ l, ∀ h, host v.url = some h → excluded.contains h = false

theorem step_visitsHostOk (host : String → Option String)
    (excluded : List String) (st : TrackerState) (e : CaptureEvent)
    (hexcl : st.excludedDomains = excluded)
    (hinv : visitsHostOk host excluded st.db.page_visits) :
    visitsHostOk host excluded (step host st e).db.page_visits := by
  have stampOk : ∀ (visitId : Nat) (d : Int),
      visitsHostOk host excluded
        ((st.db.updatePageVisitDuration visitId d).page_visits) := by
    intro visitId d v hv h hh
    have hv2 : v ∈ st.db.page_visits.map fun w =>
        if w.id = visitId then { w with duration := some d } else w := hv
    obtain ⟨w, hw, heq⟩ := List.mem_map.mp hv2
    have hurl : v.url = w.url := by
      rw [← heq]
      by_cases hc : w.id = visitId
      · rw [if_pos hc]
      · rw [if_neg hc]
    rw [hurl] at hh
    exact hinv w hw h hh
  cases e with
  | navigate now tabId tabTitle url =>
    show visitsHostOk host excluded
      (handleNavigation host st now tabId tabTitle url).db.page_visits
    unfold handleNavigation
    split
    · exact hinv
    · split
      · exact hinv
      · split
        · exact hinv
        · rename_i sid hsess hexg
          have hfalse : isExcludedDomain host st.excludedDomains url = false := by
            simpa using hexg
          have hnewOk : ∀ h, host url = some h →
              excluded.contains h = false := by
            intro h hh
            rw [← hexcl]
            simpa [isExcludedDomain, hh] using hfalse
          split
          · rename_i tracker htr
            split
            · exact hinv
            · intro v hv h hh
              have hv2 : v ∈
                  ((st.db.updatePageVisitDuration tracker.visitId
                    (now - tracker.startTime)).page_visits) ++
                  [{ id := (st.db.updatePageVisitDuration tracker.visitId
                        (now - tracker.startTime)).nextVisitId,
                     session_id := sid, tab_id := tabId, url := url,
                     title := jsOrString tabTitle "Loading...",
                     timestamp := now, duration := none,
                     favicon_url := none }] := hv
              rcases List.mem_append.mp hv2 with hmap | hnew
              · exact stampOk tracker.visitId (now - tracker.startTime) v hmap h hh
              · have hveq := List.mem_singleton.mp hnew
                rw [hveq] at hh
                exact hnewOk h hh
          · intro v hv h hh
            have hv2 : v ∈ st.db.page_visits ++
                [{ id := st.db.nextVisitId, session_id := sid, tab_id := tabId,
                   url := url, title := jsOrString tabTitle "Loading...",
                   timestamp := now, duration := none,
                   favicon_url := none }] := hv
            rcases List.mem_append.mp hv2 with hmem | hnew
            · exact hinv v hmem h hh
            · have hveq := List.mem_singleton.mp hnew
              rw [hveq] at hh
              exact hnewOk h hh
  | interact i o =>
    show visitsHostOk host excluded (recordInteraction st i o).db.page_visits
    rw [recordInteraction_page_visits]
    exact hinv
  | flushTick o =>
    show visitsHostOk host excluded (flushInteractions st o).db.page_visits
    rw [flushInteractions_page_visits]
    exact hinv
  | embedTimer env now visitId =>
    show visitsHostOk host excluded
      (generateEmbedding env st now visitId).db.page_visits
    rw [generateEmbedding_page_visits]
    exact hinv
  | tabSwitch now tabId =>
    show visitsHostOk host excluded (handleTabSwitch st now tabId).db.page_visits
    rw [handleTabSwitch_page_visits]
    exact hinv
  | tabClose now tabId =>
    show visitsHostOk host excluded (handleTabClose st now tabId).db.page_visits
    unfold handleTabClose
    split
    · exact hinv
    · split
      · exact hinv
      · split
        · rename_i sid hsess tracker htr
          exact fun v hv => stampOk tracker.visitId _ v hv
        · exact hinv

/-- C1 counterexample: with "google.com" in the exclusion set, delivering a
navigation to https://accounts.google.com/signin — whose hostname is a
subdomain of the excluded domain and matches the suffix rule that
`HistorySettings.isDomainExcluded` implements — still creates a PageVisit
row, because the tracker's `isExcludedDomain` gate tests exact hostname
membership only. -/
theorem subdomain_of_excluded_domain_recorded :
    (run demoHost (TrackerState.start ["google.com"] 0)
        [CaptureEvent.navigate 1 "t1" "Sign in"
          "https://accounts.google.com/signin"]).db.page_visits.length = 1 ∧
    (∀ v ∈ (run demoHost (TrackerState.start ["google.com"] 0)
        [CaptureEvent.navigate 1 "t1" "Sign in"
          "https://accounts.google.com/signin"]).db.page_visits,
      demoHost v.url = some "accounts.google.com") ∧
    HistorySettings.isDomainExcluded ["google.com"]
      (some "accounts.google.com") = true := by
  refine ⟨by decide, by decide, by decide⟩

/-- C1 (amended): the exclusion gate blocks exact hostname matches only:
over every sequence of capture events, no PageVisit row is ever created whose
URL's hostname is itself a member of the exclusion set (and hence no
Interaction row can attach, via its visit_id, to such a visit) — but
subdomains of an excluded domain are not blocked, since the suffix-matching
`HistorySettings.isDomainExcluded` is never invoked by the tracker. -/
theorem excluded_exact_hostname_never_recorded :
    ∀ (host : String → Option String) (excluded : List String) (t0 : Time)
      (events : List CaptureEvent) (v : PageVisitRow) (hostname : String),
      v ∈ (run host (TrackerState.start excluded t0) events).db.page_visits →
      host v.url = some hostname →
      excluded.contains hostname = false := by
  intro host excluded t0 events v hostname hv hh
  have main : ∀ (es : List CaptureEvent) (st : TrackerState),
      st.excludedDomains = excluded →
      visitsHostOk host excluded st.db.page_visits →
      (run host st es).excludedDomains = excluded ∧
      visitsHostOk host excluded (run host st es).db.page_visits := by
    intro es
    induction es with
    | nil => exact fun st h1 h2 => ⟨h1, h2⟩
    | cons e rest ih =>
      intro st h1 h2
      have hstep1 : (step host st e).excludedDomains = excluded := by
        rw [step_excludedDomains]
        exact h1
      have hstep2 := step_visitsHostOk host excluded st e h1 h2
      exact ih (step host st e) hstep1 hstep2
  have hstart2 : visitsHostOk host excluded
      (TrackerState.start excluded t0).db.page_visits := by
    intro w hw h hhw
    have hw2 : w ∈ ([] : List PageVisitRow) := hw
    exact absurd hw2 (List.not_mem_nil w)
  exact (main events (TrackerState.start excluded t0) rfl hstart2).2 v hv
    hostname hh

/-- C1 witness: a navigation to a non-excluded host is recorded, and the
amended theorem certifies its hostname is outside the exclusion set. -/
theorem excluded_exact_hostname_never_recorded_witness :
    ({ id := 1, session_id := 1, tab_id := "t1", url := "https://ok.test/",
       title := "T", timestamp := 5, duration := none, favicon_url := none } :
        PageVisitRow) ∈
      (run demoHost (TrackerState.start ["ads.example"] 0)
        [CaptureEvent.navigate 5 "t1" "T" "https://ok.test/"]).db.page_visits ∧
    demoHost "https://ok.test/" = some "ok.test" ∧
    (["ads.example"].contains "ok.test") = false :=
  ⟨by decide, by decide,
   excluded_exact_hostname_never_recorded demoHost ["ads.example"] 0
     [CaptureEvent.navigate 5 "t1" "T" "https://ok.test/"]
     { id := 1, session_id := 1, tab_id := "t1", url := "https://ok.test/",
       title := "T", timestamp := 5, duration := none, favicon_url := none }
     "ok.test" (by decide) (by decide)⟩

end Blurberry
